import Mathlib

/-!
Verification development for the scrsit extension-registry-and-orchestration layer.

The definitions below are a shallow embedding of the Python sources:
  * `src/scrsit/core/document/models.py`   (document data model)
  * `src/scrsit/core/plugin_manager.py`    (plugin registry and resolution)
  * `src/scrsit/core/workflows/ingestion.py` (ingestion pipeline)
  * `src/scrsit/plugins/parsers/pdf/parser.py` (external magic-pdf invocation)
  * `src/scrsit/core/exceptions.py`        (error taxonomy, modelled at name level)

External effects (entry-point discovery, subprocess execution, store/plugin calls)
are represented by explicit outcome values supplied in an environment record: the
embedding fixes, for one run, the result each external call would produce, and the
Lean functions reproduce the control flow of the Python code over those outcomes.
Python truthiness tests (`if name:`, `if metadata:`, `if embeddings:`) are modelled
explicitly by the `strTruthy` / `dictTruthy` / `listTruthy` helpers.
-/

namespace Scrsit

/-- Python truthiness of an `Optional[str]`: `None` and the empty string are falsy. -/
def strTruthy : Option String → Bool
  | none => false
  | some s => !(s == "")

/-- Python truthiness of an `Optional[dict]` (modelled as an association list):
`None` and the empty dict are falsy. -/
def dictTruthy : Option (List (String × String)) → Bool
  | none => false
  | some l => !l.isEmpty

/-- Python truthiness of an optional list: `None` and the empty list are falsy. -/
def listTruthy {α : Type} : Option (List α) → Bool
  | none => false
  | some l => !l.isEmpty

/-- Python `str.lower()`, written over the character list so that it computes by
kernel reduction. -/
def pyLower (s : String) : String := ⟨s.data.map Char.toLower⟩

/-- Python `str.lstrip('.')`: drop every leading `'.'`. -/
def pyLstripDot (s : String) : String :=
  ⟨s.data.dropWhile (fun c => c == '.')⟩

/-- Python `s.split('.')[-1]`: the substring after the last `'.'`, or the whole
string when it contains none. -/
def pyLastDotComponent (s : String) : String :=
  ⟨s.data.foldl (fun acc c => if c == '.' then [] else acc ++ [c]) []⟩

/-- Python `dict.get`: first binding of the key in an association list. -/
def lookup? {α : Type} (l : List (String × α)) (k : String) : Option α :=
  (l.find? (fun p => p.1 == k)).map (·.2)

/-- Python `d[k] = v` on an association list: replace the binding if the key is
present, otherwise append it. -/
def dictSet (d : List (String × String)) (k v : String) : List (String × String) :=
  if d.any (fun p => p.1 == k) then d.map (fun p => if p.1 == k then (k, v) else p)
  else d ++ [(k, v)]

/-- Python `base.update(upd)` on dicts modelled as association lists. -/
def dictUpdate (base upd : List (String × String)) : List (String × String) :=
  upd.foldl (fun acc p => dictSet acc p.1 p.2) base

/-! ## Document model (`src/scrsit/core/document/models.py`)

Only the fields read or written by the ingestion workflow are modelled in full;
vector components (`List[float]`) are abstracted to `List Int` since the claims
only concern vector counts and assignment, never float arithmetic.  Metadata
values (`Any`) are abstracted to `String`.  The element lists
(formulas/pictures/tables/links/references), `structured_content` and the
excluded `embedding` field are untouched by the workflow and omitted. -/

/-- `DocumentType` enum from models.py. -/
inductive DocumentType where
  | pdf | markdown | excel | word | ppt | html | picture | text | unknown
deriving DecidableEq

/-- `DocumentType(ext)` construction: the enum member whose value is `s`, if any. -/
def documentTypeOfString (s : String) : Option DocumentType :=
  if s == "pdf" then some .pdf
  else if s == "markdown" then some .markdown
  else if s == "excel" then some .excel
  else if s == "word" then some .word
  else if s == "ppt" then some .ppt
  else if s == "html" then some .html
  else if s == "picture" then some .picture
  else if s == "text" then some .text
  else if s == "unknown" then some .unknown
  else none

/-- `Entity` from models.py (identifying fields only; the workflow never inspects
an entity's fields, it only moves entities between lists). -/
structure Entity where
  id : String
  name : String
deriving DecidableEq

/-- `Relationship` from models.py (identifying fields only). -/
structure Relationship where
  id : String
  description : String
deriving DecidableEq

/-- `Chunk` from models.py. `vectors : Optional[List[float]]` abstracted to
`Option (List Int)`. -/
structure Chunk where
  id : String
  docId : String
  orderIndex : Nat
  content : String
  vectors : Option (List Int)
deriving DecidableEq

/-- `Document` from models.py, restricted to the fields the ingestion workflow
touches plus representative untouched fields (`checksum`, `content`, `tokens`). -/
structure Document where
  id : String
  name : String
  type : DocumentType
  checksum : Option String
  content : Option String
  length : Option Nat
  tokens : Option Nat
  metadata : List (String × String)
  entities : List Entity
  relationships : List Relationship
  chunks : List Chunk
deriving DecidableEq

/-! ## Error taxonomy

The workflow and the plugin manager raise the exception classes below.  Stage
errors carry their cause, mirroring Python exception chaining (`raise X from e`).
`configurationNoDefault` is the `ConfigurationError` that `get_plugin` raises
when no default can be determined; it carries the available plugin names, which
the Python message interpolates.  `embeddingMismatch` is the `EmbeddingError`
raised at ingestion.py line 131 for a vector-count mismatch; the enclosing
handler at line 135 wraps it, giving `embeddingError embeddingMismatch`. -/

inductive Err where
  | pluginNotFound (pluginType name : String)
  | configurationNoDefault (pluginType : String) (available : List String)
  | pluginConfigurationError (name : String)
  | pluginLoadError (name : String)
  | parsingError (cause : Err)
  | workflowError (cause : Err)
  | embeddingMismatch
  | embeddingError (cause : Err)
  | storageError (cause : Err)
  | notImplementedError
  | pluginRaised (msg : String)
deriving DecidableEq

/-- The `isinstance(e, (PluginConfigurationError, ConfigurationError))` test in
`PluginManager._get_instance` (plugin_manager.py line 172). -/
def Err.isConfigKind : Err → Bool
  | .pluginConfigurationError _ => true
  | .configurationNoDefault _ _ => true
  | _ => false

/-! ## Plugin manager (`src/scrsit/core/plugin_manager.py`)

One capability (one `interface_cls`) is modelled at a time.  A registered plugin
class is described by the behaviour of its constructor and optional
`validate_config` hook; a constructed instance is identified by the `Nat`
allocated for it (`nextId` plays the role of object identity). -/

/-- Behaviour of a registered plugin class: what its constructor raises (if
anything), whether it has a `validate_config` hook, and whether that hook
succeeds. -/
structure PluginClass where
  constructErr : Option Err
  hasValidate : Bool
  validateOk : Bool
deriving DecidableEq

/-- The per-capability slices of `PluginManager._plugins` / `_instances` plus an
allocation counter standing in for object identity of constructed instances. -/
structure PMState where
  plugins : List (String × PluginClass)
  instances : List (String × Nat)
  nextId : Nat
deriving DecidableEq

/-- Observable actions of `_get_instance`: constructing a plugin and running its
`validate_config` hook. -/
inductive PMEvent where
  | construct (name : String)
  | validate (name : String)
deriving DecidableEq

/-- `PluginManager._get_instance` (plugin_manager.py lines 136-175): return the
cached instance if present; otherwise require the name to be registered,
construct the class, optionally run `validate_config` (failure becomes
`PluginConfigurationError`), cache and return the instance.  A constructor
exception is re-raised as-is when it is a configuration error and wrapped in
`PluginLoadError` otherwise. -/
def getInstance (capName : String) (st : PMState) (name : String) :
    Except Err Nat × PMState × List PMEvent :=
  match lookup? st.instances name with
  | some i => (.ok i, st, [])
  | none =>
    match lookup? st.plugins name with
    | none => (.error (.pluginNotFound capName name), st, [])
    | some cls =>
      match cls.constructErr with
      | some e =>
        if e.isConfigKind then (.error e, st, [.construct name])
        else (.error (.pluginLoadError name), st, [.construct name])
      | none =>
        if cls.hasValidate then
          if cls.validateOk then
            (.ok st.nextId,
             { st with instances := (name, st.nextId) :: st.instances,
                       nextId := st.nextId + 1 },
             [.construct name, .validate name])
          else
            (.error (.pluginConfigurationError name), st,
             [.construct name, .validate name])
        else
          (.ok st.nextId,
           { st with instances := (name, st.nextId) :: st.instances,
                     nextId := st.nextId + 1 },
           [.construct name])

/-- The sole-plugin fallback of `PluginManager.get_plugin` (lines 214-221): when
no default name is configured, use the single registered plugin if there is
exactly one, otherwise raise `ConfigurationError` listing the available names. -/
def soleFallback (capName : String) (st : PMState) :
    Except Err Nat × PMState × List PMEvent :=
  match st.plugins with
  | [p] => getInstance capName st p.1
  | _ => (.error (.configurationNoDefault capName (st.plugins.map (·.1))), st, [])

/-- `PluginManager.get_plugin` (lines 178-224): a (truthy) explicit name goes
straight to `_get_instance`; otherwise the capability's configured default name
is used when truthy; otherwise the sole-plugin fallback applies.  `defaultName`
stands for the value the Python code reads off `settings` for this capability
(`default_<type>` or `<type>_store_name`). -/
def getPlugin (capName : String) (defaultName : Option String) (st : PMState)
    (name : Option String) : Except Err Nat × PMState × List PMEvent :=
  if strTruthy name then getInstance capName st (name.getD "")
  else if strTruthy defaultName then getInstance capName st (defaultName.getD "")
  else soleFallback capName st

/-- The parser-relevant slice of `AppSettings` (settings.py lines 36-37). -/
structure ParserSettings where
  defaultParser : Option String
  parserMapping : List (String × String)
deriving DecidableEq

/-- `file_type.lower().lstrip('.')` from `PluginManager.get_parser` line 247. -/
def normalizeFileType (ft : String) : String :=
  pyLstripDot (pyLower ft)

/-- `PluginManager.get_parser` (lines 226-257): a truthy explicit `parser_name`
wins; else a truthy `file_type` is normalized and looked up in
`settings.parser_mapping`, and a truthy mapped name is used as an explicit name;
in every remaining case the default-parser path of `get_plugin` is taken. -/
def getParserPM (ps : ParserSettings) (st : PMState)
    (fileType parserName : Option String) :
    Except Err Nat × PMState × List PMEvent :=
  if strTruthy parserName then getPlugin "BaseParser" ps.defaultParser st parserName
  else if strTruthy fileType then
    match lookup? ps.parserMapping (normalizeFileType (fileType.getD "")) with
    | some mapped =>
      if mapped == "" then getPlugin "BaseParser" ps.defaultParser st none
      else getPlugin "BaseParser" ps.defaultParser st (some mapped)
    | none => getPlugin "BaseParser" ps.defaultParser st none
  else getPlugin "BaseParser" ps.defaultParser st none

/-! ## Ingestion workflow (`src/scrsit/core/workflows/ingestion.py`)

`IngestionWorkflow.run` is embedded as a function over an environment that fixes
the outcome of every external call (plugin resolution and plugin invocation) for
one run, together with the caller's arguments.  The function returns the run's
result (`Except Err Document`) and the ordered trace of external calls it made,
which lets temporal claims (what was attempted, and in what order) be stated. -/

/-- External calls `IngestionWorkflow.run` can make, in the order of the code. -/
inductive WEvent where
  | resolveParserEv
  | parseCall
  | resolveChunkerEv
  | chunkCall
  | resolveEmbedderEv
  | embedCall
  | resolveAnalyzersEv
  | analyzeCall (name : String)
  | resolveVectorStoreEv
  | vectorAdd
  | resolveStructuredStoreEv
  | saveBatch (table : String)
  | resolveDocumentStoreEv
  | docSave
deriving DecidableEq

/-- The dynamic type of an analyzer's return value: the routing at ingestion.py
line 153 only distinguishes a Python `list` (of entities) from anything else. -/
inductive AnalysisResult where
  | entityList (es : List Entity)
  | nonList
deriving DecidableEq

instance {ε α : Type} [DecidableEq ε] [DecidableEq α] : DecidableEq (Except ε α)
  | .error e, .error f =>
    if h : e = f then .isTrue (by rw [h]) else .isFalse (by simp [h])
  | .error _, .ok _ => .isFalse (by simp)
  | .ok _, .error _ => .isFalse (by simp)
  | .ok a, .ok b =>
    if h : a = b then .isTrue (by rw [h]) else .isFalse (by simp [h])

/-- One resolved analyzer: its plugin name, its `analysis_type` tag, and what its
`analyze(document)` call produces for this run. -/
structure AnalyzerSpec where
  name : String
  analysisType : String
  result : Except Err AnalysisResult
deriving DecidableEq

/-- Outcome of resolving one name of `settings.enabled_analyzers` inside
`PluginManager.get_enabled_analyzers` (plugin_manager.py lines 290-299):
`notFound` is the `PluginNotFoundError` the method catches and logs, `resolveFail`
is any other resolution error (which escapes the method), `ok` is success. -/
inductive AnalyzerResolution where
  | notFound (name : String)
  | resolveFail (name : String) (e : Err)
  | ok (a : AnalyzerSpec)
deriving DecidableEq

/-- Per-run outcomes of every external call the workflow can make. -/
structure Env where
  resolveParserR : Except Err Unit
  parseResult : Except Err Document
  resolveChunkerR : Except Err Unit
  chunkResult : Except Err (List Chunk)
  resolveEmbedderR : Except Err Unit
  embedResult : Except Err (List (List Int))
  enabledAnalyzers : List AnalyzerResolution
  resolveVectorStoreR : Except Err Unit
  addEmbeddingsResult : Except Err (List String)
  resolveStructuredStoreR : Except Err Unit
  saveEntitiesResult : Except Err Unit
  saveRelationshipsResult : Except Err Unit
  resolveDocumentStoreR : Except Err Unit
  saveDocumentResult : Except Err Unit
  startTime : Nat
deriving DecidableEq

/-- The caller-supplied arguments of `IngestionWorkflow.run` (lines 47-55).
`file_source` itself is only ever passed through to the parser and is omitted. -/
structure RunArgs where
  filename : Option String
  docId : Option String
  metadata : Option (List (String × String))
  saveDocument : Bool
  saveChunks : Bool
  runAnalysis : Bool
deriving DecidableEq

/-- `IngestionWorkflow._get_document_type` (lines 36-45): falsy filename gives
`UNKNOWN`; otherwise the extension is the last `'.'`-separated component,
lower-cased, and an unrecognized extension gives `UNKNOWN`. -/
def getDocumentType : Option String → DocumentType
  | none => .unknown
  | some f =>
    if f == "" then .unknown
    else
      match documentTypeOfString (pyLower (pyLastDotComponent f)) with
      | some t => t
      | none => .unknown

/-- `doc_name = filename or f"document_{int(start_time)}"` (line 80). -/
def docNameOf (filename : Option String) (startTime : Nat) : String :=
  if strTruthy filename then filename.getD "" else "document_" ++ toString startTime

/-- The overlay of caller-supplied information onto the parser's document
(ingestion.py lines 90-94): id when `doc_id` is truthy, then `name`, then
`type`, then `metadata.update(metadata)` when the argument is truthy, then
`length = len(content)` when `content` is truthy. -/
def overlay (a : RunArgs) (docType : DocumentType) (docName : String)
    (d : Document) : Document :=
  let d1 := if strTruthy a.docId then { d with id := a.docId.getD "" } else d
  let d2 := { d1 with name := docName }
  let d3 := { d2 with type := docType }
  let d4 :=
    if dictTruthy a.metadata then
      { d3 with metadata := dictUpdate d3.metadata (a.metadata.getD []) }
    else d3
  if strTruthy d4.content then
    { d4 with length := some (d4.content.getD "").length }
  else d4

/-- Stage 2 (lines 82-100): resolve the parser, parse, overlay; any exception in
the block is wrapped as `ParsingError`. -/
def stageParse (env : Env) (a : RunArgs) (docType : DocumentType)
    (docName : String) : Except Err Document × List WEvent :=
  match env.resolveParserR with
  | .error e => (.error (.parsingError e), [.resolveParserEv])
  | .ok _ =>
    match env.parseResult with
    | .error e => (.error (.parsingError e), [.resolveParserEv, .parseCall])
    | .ok d => (.ok (overlay a docType docName d), [.resolveParserEv, .parseCall])

/-- Stage 3 (lines 102-114): resolve the chunker, chunk, store the chunks on the
document; any exception is wrapped as `WorkflowError`. -/
def stageChunk (env : Env) (d : Document) : Except Err Document × List WEvent :=
  match env.resolveChunkerR with
  | .error e => (.error (.workflowError e), [.resolveChunkerEv])
  | .ok _ =>
    match env.chunkResult with
    | .error e => (.error (.workflowError e), [.resolveChunkerEv, .chunkCall])
    | .ok cs => (.ok { d with chunks := cs }, [.resolveChunkerEv, .chunkCall])

/-- `for chunk, embedding in zip(document.chunks, embeddings): chunk.vectors =
embedding` (lines 126-127). -/
def setChunkVectors (cs : List Chunk) (es : List (List Int)) : List Chunk :=
  (cs.zip es).map (fun p => { p.1 with vectors := some p.2 })

/-- Stage 4 (lines 116-137), executed only when `save_chunks` and the document
has chunks: resolve the embedder, embed all chunk contents, require the vector
count to equal the chunk count (mismatch raises `EmbeddingError`), assign
vectors to chunks; any exception is wrapped as `EmbeddingError`.  Returns the
document together with the `embeddings` local (`none` when the stage was
skipped). -/
def stageEmbed (env : Env) (a : RunArgs) (d : Document) :
    Except Err (Document × Option (List (List Int))) × List WEvent :=
  if a.saveChunks && !d.chunks.isEmpty then
    match env.resolveEmbedderR with
    | .error e => (.error (.embeddingError e), [.resolveEmbedderEv])
    | .ok _ =>
      match env.embedResult with
      | .error e => (.error (.embeddingError e), [.resolveEmbedderEv, .embedCall])
      | .ok es =>
        if es.length == d.chunks.length then
          (.ok ({ d with chunks := setChunkVectors d.chunks es }, some es),
           [.resolveEmbedderEv, .embedCall])
        else
          (.error (.embeddingError .embeddingMismatch),
           [.resolveEmbedderEv, .embedCall])
  else (.ok (d, none), [])

/-- `PluginManager.get_enabled_analyzers` (lines 290-299): iterate the enabled
names; `PluginNotFoundError` is caught and the name skipped; any other
resolution error escapes; successes are collected in order. -/
def resolveAnalyzers : List AnalyzerResolution → Except Err (List AnalyzerSpec)
  | [] => .ok []
  | .notFound _ :: rest => resolveAnalyzers rest
  | .resolveFail _ e :: _ => .error e
  | .ok a :: rest => (resolveAnalyzers rest).map (a :: ·)

/-- The body of the analyzer loop (lines 145-165) for one analyzer: a raising
analyzer is logged and contributes nothing; a list result of an
`entity_extraction` analyzer extends `document.entities`; any other result is
logged as unhandled and discarded. -/
def runAnalyzer (d : Document) (s : AnalyzerSpec) : Document :=
  match s.result with
  | .error _ => d
  | .ok (.entityList es) =>
    if s.analysisType == "entity_extraction" then
      { d with entities := d.entities ++ es }
    else d
  | .ok .nonList => d

/-- The analyzer loop over all resolved analyzers, in order. -/
def runAnalyzerList (d : Document) (specs : List AnalyzerSpec) : Document :=
  specs.foldl runAnalyzer d

/-- Stage 5 (lines 140-168), executed only when `run_analysis`: resolve the
enabled analyzers (an escaping resolution error propagates unwrapped, since the
call at line 142 is outside every `try`), then run each analyzer in order. -/
def stageAnalyze (env : Env) (a : RunArgs) (d : Document) :
    Except Err Document × List WEvent :=
  if a.runAnalysis then
    match resolveAnalyzers env.enabledAnalyzers with
    | .error e => (.error e, [.resolveAnalyzersEv])
    | .ok specs =>
      (.ok (runAnalyzerList d specs),
       .resolveAnalyzersEv :: specs.map (fun s => .analyzeCall s.name))
  else (.ok d, [])

/-- Stage 6.1 (lines 172-180), executed only when `save_chunks`, the document
has chunks and the `embeddings` local is truthy: resolve the vector store and
add the embeddings; any exception is wrapped as `StorageError` and is fatal. -/
def stagePersistVector (env : Env) (a : RunArgs) (d : Document)
    (embeddings : Option (List (List Int))) : Except Err Unit × List WEvent :=
  if a.saveChunks && !d.chunks.isEmpty && listTruthy embeddings then
    match env.resolveVectorStoreR with
    | .error e => (.error (.storageError e), [.resolveVectorStoreEv])
    | .ok _ =>
      match env.addEmbeddingsResult with
      | .error e => (.error (.storageError e), [.resolveVectorStoreEv, .vectorAdd])
      | .ok _ => (.ok (), [.resolveVectorStoreEv, .vectorAdd])
  else (.ok (), [])

/-- Stage 6.2 (lines 183-202), executed only when `run_analysis` and the
document has entities or relationships: resolve the structured store, save the
entity batch when there are entities, then the relationship batch when there are
relationships.  Every exception in the block (including resolution errors and
`NotImplementedError`) is caught and logged, so this stage only contributes
events, never a result. -/
def stagePersistStructured (env : Env) (a : RunArgs) (d : Document) :
    List WEvent :=
  if a.runAnalysis && (!d.entities.isEmpty || !d.relationships.isEmpty) then
    match env.resolveStructuredStoreR with
    | .error _ => [.resolveStructuredStoreEv]
    | .ok _ =>
      if !d.entities.isEmpty then
        match env.saveEntitiesResult with
        | .error _ => [.resolveStructuredStoreEv, .saveBatch "entities"]
        | .ok _ =>
          if !d.relationships.isEmpty then
            [.resolveStructuredStoreEv, .saveBatch "entities",
             .saveBatch "relationships"]
          else [.resolveStructuredStoreEv, .saveBatch "entities"]
      else
        if !d.relationships.isEmpty then
          [.resolveStructuredStoreEv, .saveBatch "relationships"]
        else [.resolveStructuredStoreEv]
  else []

/-- Stage 6.3 (lines 205-217), executed only when `save_document`: resolve the
document store and save; any exception is wrapped as `StorageError` and fatal. -/
def stagePersistDocument (env : Env) (a : RunArgs) :
    Except Err Unit × List WEvent :=
  if a.saveDocument then
    match env.resolveDocumentStoreR with
    | .error e => (.error (.storageError e), [.resolveDocumentStoreEv])
    | .ok _ =>
      match env.saveDocumentResult with
      | .error e => (.error (.storageError e), [.resolveDocumentStoreEv, .docSave])
      | .ok _ => (.ok (), [.resolveDocumentStoreEv, .docSave])
  else (.ok (), [])

/-- `IngestionWorkflow.run` (lines 47-222): the sequential composition of the
stages above.  The first component is the Python return value (the document) or
the exception the call raises; the second is the ordered trace of external
calls. -/
def run (env : Env) (a : RunArgs) : Except Err Document × List WEvent :=
  let docType := getDocumentType a.filename
  let docName := docNameOf a.filename env.startTime
  match stageParse env a docType docName with
  | (.error e, t1) => (.error e, t1)
  | (.ok d1, t1) =>
    match stageChunk env d1 with
    | (.error e, t2) => (.error e, t1 ++ t2)
    | (.ok d2, t2) =>
      match stageEmbed env a d2 with
      | (.error e, t3) => (.error e, t1 ++ t2 ++ t3)
      | (.ok (d3, embeddings), t3) =>
        match stageAnalyze env a d3 with
        | (.error e, t4) => (.error e, t1 ++ t2 ++ t3 ++ t4)
        | (.ok d4, t4) =>
          match stagePersistVector env a d4 embeddings with
          | (.error e, t5) => (.error e, t1 ++ t2 ++ t3 ++ t4 ++ t5)
          | (.ok _, t5) =>
            let t6 := stagePersistStructured env a d4
            match stagePersistDocument env a with
            | (.error e, t7) =>
              (.error e, t1 ++ t2 ++ t3 ++ t4 ++ t5 ++ t6 ++ t7)
            | (.ok _, t7) =>
              (.ok d4, t1 ++ t2 ++ t3 ++ t4 ++ t5 ++ t6 ++ t7)

/-! ## External magic-pdf invocation
(`src/scrsit/plugins/parsers/pdf/parser.py`, `_run_magic_pdf`, lines 205-301,
and its call site in `parse`, lines 117-124)

One execution of the external command either completes within the configured
timeout with some return code, or exceeds the timeout.  `_run_magic_pdf`
launches the process exactly once: a zero return code succeeds, a non-zero
return code raises `MagicPdfExecutionError` naming the code, and a timeout
terminates the process and raises `MagicPdfExecutionError` for the timeout.
There is no retry loop, retry count, or inter-attempt delay anywhere in
parser.py or its `PdfParserSettings` (config.py): `parse` wraps the single
`_run_magic_pdf` call in `asyncio.run` (line 120) and wraps its failure into a
fresh `MagicPdfExecutionError` (line 124). -/

/-- What one attempt of the external command would do. -/
inductive AttemptOutcome where
  | completes (returncode : Int)
  | timesOut
deriving DecidableEq

/-- Failures of `_run_magic_pdf`: both are raised as `MagicPdfExecutionError`,
the first carrying the non-zero return code in its message (parser.py lines
252-254), the second the timeout indication (line 276). -/
inductive MagicPdfErr where
  | nonZeroExit (returncode : Int)
  | timeout
deriving DecidableEq

/-- `PdfParser._run_magic_pdf` on one process execution. -/
def runMagicPdf : AttemptOutcome → Except MagicPdfErr Unit
  | .completes code =>
    if code == 0 then .ok () else .error (.nonZeroExit code)
  | .timesOut => .error .timeout

/-- The magic-pdf invocation as `PdfParser.parse` performs it, evaluated against
the sequence of outcomes that successive attempts of the external command would
produce.  The code executes the command exactly once (parser.py line 120), so
only the first element is ever consumed; an empty sequence means the command is
never available to run and is modelled as a timeout. -/
def invokeMagicPdf : List AttemptOutcome → Except MagicPdfErr Unit
  | [] => .error .timeout
  | o :: _ => runMagicPdf o

/-- The number of attempts `PdfParser.parse` makes on the external command:
always exactly one (parser.py line 120 is the only call site and is not inside
any loop). -/
def magicPdfAttemptCount (outcomes : List AttemptOutcome) : Nat :=
  if outcomes.isEmpty then 0 else 1

/-- The field names of `PdfParserSettings` (config.py lines 11-54), the complete
configuration surface of the PDF parser plugin: no retry count and no
inter-attempt delay are configurable. -/
def pdfParserSettingsFields : List String :=
  ["magic_pdf_path", "magic_pdf_output_base_dir", "magic_pdf_timeout_seconds",
   "magic_pdf_extra_args", "magic_pdf_result_dir", "large_file_threshold_mb",
   "cleanup_magic_pdf_output"]

/-! ## Error-taxonomy module, at name level
(`src/scrsit/core/exceptions.py` against its importers)

The taxonomy claims are about which exception classes the module defines, so the
module is embedded as the list of class names it declares, and each importing
module as the list of names its `from scrsit.core.exceptions import ...`
statement requests.  A requested name that is not defined makes the import (and
hence any use of the importing module) fail with `ImportError`. -/

/-- The exception classes `src/scrsit/core/exceptions.py` defines, in source
order (lines 7-70). -/
def coreExceptionsDefinedNames : List String :=
  ["ScrsitError", "ConfigurationError", "WorkflowError", "PluginNotFoundError",
   "PluginError", "ParsingError", "AnalysisError", "EmbeddingError",
   "ProviderError", "StoreError"]

/-- The names `src/scrsit/core/plugin_manager.py` imports from
`scrsit.core.exceptions` (lines 14-16). -/
def pluginManagerImportedExceptionNames : List String :=
  ["PluginNotFoundError", "PluginLoadError", "PluginConfigurationError",
   "ConfigurationError"]

/-- The names `src/scrsit/core/workflows/ingestion.py` imports from
`scrsit.core.exceptions` (line 14). -/
def ingestionImportedExceptionNames : List String :=
  ["WorkflowError", "ParsingError", "EmbeddingError", "AnalysisError",
   "StorageError"]

/-! ## Derived definitions used by the statements -/

/-- Events of the vector-store persistence step (stage 6.1). -/
def WEvent.isVectorEvent : WEvent → Bool
  | .resolveVectorStoreEv => true
  | .vectorAdd => true
  | _ => false

/-- Events of the structured-store persistence step (stage 6.2). -/
def WEvent.isStructuredEvent : WEvent → Bool
  | .resolveStructuredStoreEv => true
  | .saveBatch _ => true
  | _ => false

/-- Events of the document-store persistence step (stage 6.3). -/
def WEvent.isDocStoreEvent : WEvent → Bool
  | .resolveDocumentStoreEv => true
  | .docSave => true
  | _ => false

/-- Events of any persistence step. -/
def WEvent.isPersistEvent (e : WEvent) : Bool :=
  e.isVectorEvent || e.isStructuredEvent || e.isDocStoreEvent

/-- The entities one analyzer contributes to the document per the routing at
ingestion.py lines 153-159: the result list when the analyzer succeeded, its
result is a list and its `analysis_type` is `entity_extraction`; nothing
otherwise. -/
def analyzerContribution (s : AnalyzerSpec) : List Entity :=
  match s.result with
  | .ok (.entityList es) =>
    if s.analysisType == "entity_extraction" then es else []
  | _ => []

/-- Whether a resolution outcome is the kind of error `get_enabled_analyzers`
does not catch. -/
def AnalyzerResolution.isResolveFail : AnalyzerResolution → Bool
  | .resolveFail _ _ => true
  | _ => false

/-- The analyzers that resolve successfully, in order. -/
def okAnalyzers (rs : List AnalyzerResolution) : List AnalyzerSpec :=
  rs.filterMap (fun r => match r with | .ok s => some s | _ => none)

/-- Well-formedness of the per-capability registry state: cache keys are
distinct (Python dict), cached instance identities are distinct, and every
cached identity was allocated below the counter.  It holds for the initial
state (empty cache) and is preserved by `getInstance`. -/
def PMState.WF (st : PMState) : Prop :=
  (st.instances.map Prod.fst).Nodup ∧ (st.instances.map Prod.snd).Nodup ∧
  ∀ p ∈ st.instances, p.2 < st.nextId

/-! ## Concrete fixtures for witnesses and counterexamples -/

/-- A plugin class whose constructor succeeds and which has no
`validate_config` hook. -/
def okPluginClass : PluginClass := ⟨none, false, true⟩

/-- A registry with two well-behaved plugins and an empty instance cache. -/
def regTwo : PMState :=
  ⟨[("alpha", okPluginClass), ("beta", okPluginClass)], [], 0⟩

/-- A registry with a single well-behaved plugin and an empty instance cache. -/
def regOne : PMState := ⟨[("alpha", okPluginClass)], [], 0⟩

/-- `regTwo` after constructing `"alpha"`: the instance is cached under
identity `0` and the counter moved to `1`. -/
def regTwoAfterAlpha : PMState :=
  ⟨[("alpha", okPluginClass), ("beta", okPluginClass)], [("alpha", 0)], 1⟩

/-- `regTwoAfterAlpha` after additionally constructing `"beta"`. -/
def regTwoAfterBoth : PMState :=
  ⟨[("alpha", okPluginClass), ("beta", okPluginClass)],
   [("beta", 1), ("alpha", 0)], 2⟩

/-- Parser settings with a configured default and a `pdf` mapping entry. -/
def psBoth : ParserSettings := ⟨some "beta", [("pdf", "alpha")]⟩

/-- Parser settings with no default and no mapping. -/
def psNone : ParserSettings := ⟨none, []⟩

/-- A chunk as a chunker would produce it. -/
def chunkA : Chunk := ⟨"ch1", "doc1", 0, "hello", none⟩

/-- A document as a parser would return it (note `type = pdf`,
`length = none`, nonempty `content`). -/
def parsedDoc : Document :=
  ⟨"doc1", "orig.name", .pdf, some "sha", some "hello", none, none,
   [("k", "v")], [], [], []⟩

/-- A sample extracted entity. -/
def entA : Entity := ⟨"e1", "Alice"⟩

/-- A sample extracted entity. -/
def entB : Entity := ⟨"e2", "Bob"⟩

/-- An environment in which every external call succeeds and no analyzers are
enabled. -/
def baseEnv : Env :=
  { resolveParserR := .ok ()
    parseResult := .ok parsedDoc
    resolveChunkerR := .ok ()
    chunkResult := .ok [chunkA]
    resolveEmbedderR := .ok ()
    embedResult := .ok [[1]]
    enabledAnalyzers := []
    resolveVectorStoreR := .ok ()
    addEmbeddingsResult := .ok ["ch1"]
    resolveStructuredStoreR := .ok ()
    saveEntitiesResult := .ok ()
    saveRelationshipsResult := .ok ()
    resolveDocumentStoreR := .ok ()
    saveDocumentResult := .ok ()
    startTime := 7 }

/-- Arguments asking for everything: save the document and the chunks, run the
analysis, and supply a recognizable pdf filename. -/
def baseArgs : RunArgs := ⟨some "file.pdf", none, none, true, true, true⟩

/-- Arguments with an unrecognized extension and analysis disabled. -/
def xyzArgs : RunArgs := ⟨some "file.xyz", none, none, true, true, false⟩

/-- Arguments with analysis enabled but both save flags disabled. -/
def analysisOnlyArgs : RunArgs := ⟨some "file.pdf", none, none, false, false, true⟩

/-- `chunkA` after the embed stage assigned it the vector `[1]`. -/
def chunkAVec : Chunk := ⟨"ch1", "doc1", 0, "hello", some [1]⟩

/-- The document `run baseEnv xyzArgs` returns: the overlay rewrote `name`,
`type` (to `unknown`, from the `.xyz` extension) and `length` (to the content
length 5), and the embed stage assigned chunk vectors. -/
def c9ResultDoc : Document :=
  ⟨"doc1", "file.xyz", .unknown, some "sha", some "hello", some 5, none,
   [("k", "v")], [], [], [chunkAVec]⟩

/-- An enabled `entity_extraction` analyzer whose `analyze` call raises. -/
def specA : AnalyzerSpec :=
  ⟨"anA", "entity_extraction", .error (.pluginRaised "boom")⟩

/-- An enabled `entity_extraction` analyzer that returns one entity. -/
def specB : AnalyzerSpec := ⟨"anB", "entity_extraction", .ok (.entityList [entA])⟩

/-- An enabled analyzer with an unrecognized `analysis_type` and a non-list
result. -/
def specC : AnalyzerSpec := ⟨"anC", "sentiment", .ok .nonList⟩

/-- `baseEnv` with three resolved analyzers: one failing, one contributing an
entity, one of unrecognized type. -/
def env5 : Env :=
  { baseEnv with enabledAnalyzers := [.ok specA, .ok specB, .ok specC] }

/-- The document produced by parse + overlay + chunk under `baseEnv` and a
`file.pdf` filename, before analysis. -/
def overlaidDoc : Document :=
  ⟨"doc1", "file.pdf", .pdf, some "sha", some "hello", some 5, none,
   [("k", "v")], [], [], [chunkA]⟩

/-- `overlaidDoc` plus the one entity the successful analyzer contributed. -/
def c5ResultDoc : Document := { overlaidDoc with entities := [entA] }

/-- `baseEnv` with a single enabled analyzer name that is not registered. -/
def env7 : Env := { baseEnv with enabledAnalyzers := [.notFound "missing"] }

/-- `baseEnv` with one contributing analyzer. -/
def env10 : Env := { baseEnv with enabledAnalyzers := [.ok specB] }

/-- Arguments saving document and chunks but with analysis disabled. -/
def noAnalysisArgs : RunArgs := ⟨some "file.pdf", none, none, true, true, false⟩

/-- Arguments saving only the document. -/
def docOnlyArgs : RunArgs := ⟨some "file.pdf", none, none, true, false, false⟩

/-- Arguments saving the document and running analysis, without chunk
persistence. -/
def docAnalysisArgs : RunArgs := ⟨some "file.pdf", none, none, true, false, true⟩

/-- `parsedDoc` with one parser-extracted entity. -/
def parsedDocE : Document := { parsedDoc with entities := [entB] }

/-- `overlaidDoc` with the parser-extracted entity carried through. -/
def overlaidDocE : Document := { overlaidDoc with entities := [entB] }

/-- `baseEnv` whose vector-store add call fails. -/
def vecFailEnv : Env :=
  { baseEnv with addEmbeddingsResult := .error (.pluginRaised "db") }

/-- `baseEnv` with a parser-extracted entity and a failing structured-store
entity batch. -/
def structFailEnv : Env :=
  { baseEnv with
    parseResult := .ok parsedDocE
    saveEntitiesResult := .error .notImplementedError }

/-- `structFailEnv` with a failing document-store save as well. -/
def structDocFailEnv : Env :=
  { structFailEnv with saveDocumentResult := .error (.pluginRaised "disk") }

/-! ## Helper lemmas about `lookup?` -/

theorem lookup?_cons_self {α : Type} (k : String) (v : α)
    (l : List (String × α)) : lookup? ((k, v) :: l) k = some v := by
  unfold lookup?
  rw [List.find?_cons_of_pos _ (by simp)]
  rfl

theorem lookup?_cons_ne {α : Type} {a k : String} (v : α)
    (l : List (String × α)) (h : a ≠ k) :
    lookup? ((a, v) :: l) k = lookup? l k := by
  unfold lookup?
  rw [List.find?_cons_of_neg _ (by simpa using h)]

theorem lookup?_mem {α : Type} {l : List (String × α)} {k : String} {v : α}
    (h : lookup? l k = some v) : (k, v) ∈ l := by
  unfold lookup? at h
  cases hf : l.find? (fun p => p.1 == k) with
  | none => rw [hf] at h; simp at h
  | some p =>
    rw [hf] at h
    have hp := List.find?_some hf
    have hm : p ∈ l := List.mem_of_find?_eq_some hf
    obtain ⟨p1, p2⟩ := p
    simp at h hp
    rw [← hp, ← h]
    exact hm

theorem lookup?_eq_none_not_mem {α : Type} {l : List (String × α)}
    {k : String} (h : lookup? l k = none) : ∀ v, (k, v) ∉ l := by
  intro v hv
  unfold lookup? at h
  rw [Option.map_eq_none'] at h
  have := List.find?_eq_none.mp h _ hv
  simp at this

/-! ## Helper lemmas about truthiness and `getInstance` -/

theorem strTruthy_none : strTruthy none = false := rfl

theorem strTruthy_some (s : String) : strTruthy (some s) = !(s == "") := rfl

theorem getInstance_ok_cases {cap : String} {st : PMState} {name : String}
    {i : Nat} {st' : PMState} {ev : List PMEvent}
    (h : getInstance cap st name = (.ok i, st', ev)) :
    (lookup? st.instances name = some i ∧ st' = st ∧ ev = []) ∨
    (lookup? st.instances name = none ∧ i = st.nextId ∧
     st' = { st with instances := (name, st.nextId) :: st.instances,
                     nextId := st.nextId + 1 }) := by
  unfold getInstance at h
  split at h
  · left
    rename_i j hj
    simp at h
    exact ⟨by rw [hj, h.1], h.2.1.symm, h.2.2⟩
  · rename_i hnone
    split at h
    · simp at h
    · split at h
      · split at h <;> simp at h
      · split at h
        · split at h
          · simp at h
            exact .inr ⟨hnone, h.1.symm, h.2.1.symm⟩
          · simp at h
        · simp at h
          exact .inr ⟨hnone, h.1.symm, h.2.1.symm⟩

theorem getInstance_state_cases {cap : String} {st : PMState} {name : String}
    {r : Except Err Nat} {st' : PMState} {ev : List PMEvent}
    (h : getInstance cap st name = (r, st', ev)) :
    st' = st ∨
    (lookup? st.instances name = none ∧
     st' = { st with instances := (name, st.nextId) :: st.instances,
                     nextId := st.nextId + 1 }) := by
  unfold getInstance at h
  split at h
  · left; simp at h; exact h.2.1.symm
  · rename_i hnone
    split at h
    · left; simp at h; exact h.2.1.symm
    · split at h
      · split at h <;> (left; simp at h; exact h.2.1.symm)
      · split at h
        · split at h
          · simp at h; exact .inr ⟨hnone, h.2.1.symm⟩
          · left; simp at h; exact h.2.1.symm
        · simp at h; exact .inr ⟨hnone, h.2.1.symm⟩

theorem key_not_mem_of_lookup?_none {α : Type} {l : List (String × α)}
    {k : String} (h : lookup? l k = none) : k ∉ l.map Prod.fst := by
  intro hk
  rw [List.mem_map] at hk
  obtain ⟨p, hp, hpk⟩ := hk
  obtain ⟨p1, p2⟩ := p
  subst hpk
  exact lookup?_eq_none_not_mem h p2 hp

/-! ## Helper lemmas about the workflow stages -/

theorem isEmpty_false_of_ne_nil {α : Type} {l : List α} (h : l ≠ []) :
    l.isEmpty = false := by
  cases l with
  | nil => exact absurd rfl h
  | cons a t => rfl

theorem overlay_entities (a : RunArgs) (dt : DocumentType) (dn : String)
    (d : Document) : (overlay a dt dn d).entities = d.entities := by
  simp only [overlay]
  split_ifs <;> rfl

theorem overlay_relationships (a : RunArgs) (dt : DocumentType) (dn : String)
    (d : Document) : (overlay a dt dn d).relationships = d.relationships := by
  simp only [overlay]
  split_ifs <;> rfl

theorem overlay_chunks (a : RunArgs) (dt : DocumentType) (dn : String)
    (d : Document) : (overlay a dt dn d).chunks = d.chunks := by
  simp only [overlay]
  split_ifs <;> rfl

theorem runAnalyzer_entities (d : Document) (s : AnalyzerSpec) :
    (runAnalyzer d s).entities = d.entities ++ analyzerContribution s := by
  cases hr : s.result with
  | error e => simp [runAnalyzer, analyzerContribution, hr]
  | ok r =>
    cases r with
    | entityList es =>
      by_cases ht : (s.analysisType == "entity_extraction") = true <;>
        simp [runAnalyzer, analyzerContribution, hr, ht]
    | nonList => simp [runAnalyzer, analyzerContribution, hr]

theorem runAnalyzer_chunks (d : Document) (s : AnalyzerSpec) :
    (runAnalyzer d s).chunks = d.chunks := by
  unfold runAnalyzer
  split
  · rfl
  · split <;> rfl
  · rfl

theorem runAnalyzer_relationships (d : Document) (s : AnalyzerSpec) :
    (runAnalyzer d s).relationships = d.relationships := by
  unfold runAnalyzer
  split
  · rfl
  · split <;> rfl
  · rfl

theorem runAnalyzerList_entities (d : Document) (specs : List AnalyzerSpec) :
    (runAnalyzerList d specs).entities =
      d.entities ++ (specs.map analyzerContribution).flatten := by
  induction specs generalizing d with
  | nil => simp [runAnalyzerList]
  | cons s rest ih =>
    show (runAnalyzerList (runAnalyzer d s) rest).entities = _
    rw [ih, runAnalyzer_entities]
    simp

theorem runAnalyzerList_chunks (d : Document) (specs : List AnalyzerSpec) :
    (runAnalyzerList d specs).chunks = d.chunks := by
  induction specs generalizing d with
  | nil => rfl
  | cons s rest ih =>
    show (runAnalyzerList (runAnalyzer d s) rest).chunks = _
    rw [ih, runAnalyzer_chunks]

theorem runAnalyzerList_relationships (d : Document)
    (specs : List AnalyzerSpec) :
    (runAnalyzerList d specs).relationships = d.relationships := by
  induction specs generalizing d with
  | nil => rfl
  | cons s rest ih =>
    show (runAnalyzerList (runAnalyzer d s) rest).relationships = _
    rw [ih, runAnalyzer_relationships]

theorem setChunkVectors_length (cs : List Chunk) (es : List (List Int)) :
    (setChunkVectors cs es).length = min cs.length es.length := by
  simp [setChunkVectors]

theorem stageParse_trace_all (env : Env) (a : RunArgs) (dt : DocumentType)
    (dn : String) :
    ((stageParse env a dt dn).2).all (fun e => !e.isPersistEvent) = true := by
  unfold stageParse
  rcases env.resolveParserR with e | u
  · rfl
  · rcases env.parseResult with e | d <;> rfl

theorem stageChunk_trace_all (env : Env) (d : Document) :
    ((stageChunk env d).2).all (fun e => !e.isPersistEvent) = true := by
  unfold stageChunk
  rcases env.resolveChunkerR with e | u
  · rfl
  · rcases env.chunkResult with e | cs <;> rfl

theorem stageEmbed_trace_all (env : Env) (a : RunArgs) (d : Document) :
    ((stageEmbed env a d).2).all (fun e => !e.isPersistEvent) = true := by
  unfold stageEmbed
  rcases env.resolveEmbedderR with e | u <;>
    rcases env.embedResult with e2 | es <;>
      (repeat' split) <;> rfl

theorem stageAnalyze_trace_all (env : Env) (a : RunArgs) (d : Document) :
    ((stageAnalyze env a d).2).all (fun e => !e.isPersistEvent) = true := by
  unfold stageAnalyze
  split
  · rcases resolveAnalyzers env.enabledAnalyzers with e | specs
    · rfl
    · simp [List.all_eq_true]
      refine ⟨rfl, ?_⟩
      intro s hs
      rfl
  · rfl

theorem stagePersistVector_trace_all (env : Env) (a : RunArgs) (d : Document)
    (embeddings : Option (List (List Int))) :
    ((stagePersistVector env a d embeddings).2).all WEvent.isVectorEvent
      = true := by
  unfold stagePersistVector
  split
  · rcases env.resolveVectorStoreR with e | u
    · rfl
    · rcases env.addEmbeddingsResult with e | ids <;> rfl
  · rfl

theorem stagePersistStructured_trace_all (env : Env) (a : RunArgs)
    (d : Document) :
    (stagePersistStructured env a d).all WEvent.isStructuredEvent = true := by
  unfold stagePersistStructured
  rcases env.resolveStructuredStoreR with e | u <;>
    rcases env.saveEntitiesResult with e2 | u2 <;>
      (repeat' split) <;> rfl

theorem stagePersistDocument_trace_all (env : Env) (a : RunArgs) :
    ((stagePersistDocument env a).2).all WEvent.isDocStoreEvent = true := by
  unfold stagePersistDocument
  split
  · rcases env.resolveDocumentStoreR with e | u
    · rfl
    · rcases env.saveDocumentResult with e | u2 <;> rfl
  · rfl

/-! ## Claim theorems -/

/-- Claim C1: plugin resolution follows the strict order.  (1) A truthy explicit
name is handed straight to `_get_instance`, bypassing mapping and default
entirely. (2) An unregistered (and uncached) explicit name fails with
`PluginNotFoundError`, never falling through to the default, however valid the
default might be. (3) Without an explicit name, a truthy entry of
`parser_mapping` under the lower-cased, dot-stripped file type is used as an
explicit name. (4) Without a mapping entry, the truthy configured default name
is used. (5) Without a truthy default, the sole registered implementation is
used when there is exactly one. (6) Otherwise resolution fails with a
configuration error listing the available implementation names. -/
theorem c1_resolution_order :
    (∀ ps st ft n, n ≠ "" →
      getParserPM ps st ft (some n) = getInstance "BaseParser" st n) ∧
    (∀ ps st ft n, n ≠ "" →
      lookup? st.instances n = none → lookup? st.plugins n = none →
      (getParserPM ps st ft (some n)).1 =
        .error (.pluginNotFound "BaseParser" n)) ∧
    (∀ ps st ft m, ft ≠ "" →
      lookup? ps.parserMapping (normalizeFileType ft) = some m → m ≠ "" →
      getParserPM ps st (some ft) none = getInstance "BaseParser" st m) ∧
    (∀ ps st ft d, ft ≠ "" →
      lookup? ps.parserMapping (normalizeFileType ft) = none →
      ps.defaultParser = some d → d ≠ "" →
      getParserPM ps st (some ft) none = getInstance "BaseParser" st d) ∧
    (∀ ps st p, strTruthy ps.defaultParser = false → st.plugins = [p] →
      getParserPM ps st none none = getInstance "BaseParser" st p.1) ∧
    (∀ ps st, strTruthy ps.defaultParser = false → st.plugins.length ≠ 1 →
      (getParserPM ps st none none).1 =
        .error (.configurationNoDefault "BaseParser" (st.plugins.map (·.1)))) := by
  refine ⟨?_, ?_, ?_, ?_, ?_, ?_⟩
  · intro ps st ft n hn
    simp [getParserPM, getPlugin, strTruthy, hn]
  · intro ps st ft n hn hc hp
    simp [getParserPM, getPlugin, getInstance, strTruthy, hn, hc, hp]
  · intro ps st ft m hft hm hmne
    simp [getParserPM, getPlugin, strTruthy, hft, hm, hmne]
  · intro ps st ft d hft hm hd hdne
    simp [getParserPM, getPlugin, strTruthy, hft, hm, hd, hdne]
  · intro ps st p hdef hp
    simp [getParserPM, getPlugin, strTruthy_none, hdef, soleFallback, hp]
  · intro ps st hdef hlen
    have hshape : getParserPM ps st none none = soleFallback "BaseParser" st := by
      simp [getParserPM, getPlugin, strTruthy_none, hdef]
    rw [hshape]
    match hpl : st.plugins with
    | [] => simp [soleFallback, hpl]
    | [p] => rw [hpl] at hlen; simp at hlen
    | p :: q :: rest => simp [soleFallback, hpl]

/-- Claim C1, witness at concrete inputs: with plugins `alpha`/`beta`
registered, mapping `pdf → alpha` and default `beta`, each resolution rung is
exercised — explicit wins over mapping and default, an invalid explicit name
fails not-found despite a valid default, `.PDF` normalizes to `pdf` and selects
the mapped `alpha`, an unmapped `docx` falls to the default `beta`, a lone
registered plugin is the implicit default, and two plugins with no default
yield the configuration error listing both names. -/
theorem c1_resolution_order_witness :
    getParserPM psBoth regTwo (some ".PDF") (some "beta") =
      getInstance "BaseParser" regTwo "beta" ∧
    (getParserPM psBoth regTwo (some ".PDF") (some "bad")).1 =
      .error (.pluginNotFound "BaseParser" "bad") ∧
    getParserPM psBoth regTwo (some ".PDF") none =
      getInstance "BaseParser" regTwo "alpha" ∧
    getParserPM psBoth regTwo (some "docx") none =
      getInstance "BaseParser" regTwo "beta" ∧
    getParserPM psNone regOne none none =
      getInstance "BaseParser" regOne "alpha" ∧
    (getParserPM psNone regTwo none none).1 =
      .error (.configurationNoDefault "BaseParser" ["alpha", "beta"]) := by
  have h := c1_resolution_order
  exact ⟨h.1 psBoth regTwo (some ".PDF") "beta" (by decide),
         h.2.1 psBoth regTwo (some ".PDF") "bad" (by decide) (by decide)
           (by decide),
         h.2.2.1 psBoth regTwo ".PDF" "alpha" (by decide) (by decide)
           (by decide),
         h.2.2.2.1 psBoth regTwo "docx" "beta" (by decide) (by decide)
           (by decide) (by decide),
         h.2.2.2.2.1 psNone regOne ("alpha", okPluginClass) (by decide)
           (by decide),
         h.2.2.2.2.2 psNone regTwo (by decide) (by decide)⟩

/-- Claim C8: the registry caches one constructed instance per (capability,
name).  (1) After a call returns an instance, a second call for the same name
returns the identical instance, leaves the state unchanged, and performs no
construction or validation (its event list is empty). (2) From a well-formed
state, two successful calls for different names return distinct instances.
(3) `getInstance` preserves well-formedness, so the hypotheses of (1)-(2) hold
along any call sequence from the initial (empty-cache) state. -/
theorem c8_instance_caching :
    (∀ cap st name i st' ev, getInstance cap st name = (.ok i, st', ev) →
      getInstance cap st' name = (.ok i, st', [])) ∧
    (∀ cap st a b ia ib st1 st2 e1 e2, PMState.WF st → a ≠ b →
      getInstance cap st a = (.ok ia, st1, e1) →
      getInstance cap st1 b = (.ok ib, st2, e2) → ia ≠ ib) ∧
    (∀ cap st name r st' ev, PMState.WF st →
      getInstance cap st name = (r, st', ev) → PMState.WF st') := by
  refine ⟨?_, ?_, ?_⟩
  · intro cap st name i st' ev h
    rcases getInstance_ok_cases h with ⟨hl, hst, _⟩ | ⟨hl, hi, hst⟩
    · subst hst
      unfold getInstance
      rw [hl]
    · subst hst hi
      unfold getInstance
      rw [lookup?_cons_self]
  · intro cap st a b ia ib st1 st2 e1 e2 hwf hab h1 h2
    rcases getInstance_ok_cases h1 with ⟨hl1, hst1, _⟩ | ⟨hl1, hi1, hst1⟩
    · subst hst1
      rcases getInstance_ok_cases h2 with ⟨hl2, _, _⟩ | ⟨hl2, hi2, _⟩
      · intro heq
        have hm1 := lookup?_mem hl1
        have hm2 := lookup?_mem hl2
        have := List.inj_on_of_nodup_map hwf.2.1 hm1 hm2 (by simpa using heq)
        exact hab (congrArg Prod.fst this)
      · subst hi2
        exact Nat.ne_of_lt (hwf.2.2 _ (lookup?_mem hl1))
    · subst hi1 hst1
      rcases getInstance_ok_cases h2 with ⟨hl2, _, _⟩ | ⟨hl2, hi2, _⟩
      · rw [lookup?_cons_ne _ _ hab] at hl2
        have := hwf.2.2 _ (lookup?_mem hl2)
        exact (Nat.ne_of_lt this).symm
      · subst hi2
        exact Nat.ne_of_lt (Nat.lt_succ_self _)
  · intro cap st name r st' ev hwf h
    rcases getInstance_state_cases h with hst | ⟨hl, hst⟩
    · subst hst; exact hwf
    · subst hst
      refine ⟨?_, ?_, ?_⟩
      · exact List.Nodup.cons (key_not_mem_of_lookup?_none hl) hwf.1
      · refine List.Nodup.cons ?_ hwf.2.1
        intro hmem
        rw [List.mem_map] at hmem
        obtain ⟨p, hp, hpv⟩ := hmem
        exact absurd hpv (Nat.ne_of_lt (hwf.2.2 p hp))
      · intro p hp
        rcases List.mem_cons.mp hp with hph | hpt
        · subst hph; exact Nat.lt_succ_self _
        · exact Nat.lt_succ_of_lt (hwf.2.2 p hpt)

/-- Claim C8, witness: in the two-plugin registry, constructing `alpha` yields
instance `0`; asking for `alpha` again returns the identical instance `0` with
no construction event and an unchanged state, while asking next for `beta`
yields the distinct instance `1`; well-formedness carries over. -/
theorem c8_instance_caching_witness :
    getInstance "BaseParser" regTwoAfterAlpha "alpha" =
      (.ok 0, regTwoAfterAlpha, []) ∧
    (0 : Nat) ≠ 1 ∧
    PMState.WF regTwoAfterAlpha := by
  have h := c8_instance_caching
  exact ⟨h.1 "BaseParser" regTwo "alpha" 0 regTwoAfterAlpha
           [.construct "alpha"] (by decide),
         h.2.1 "BaseParser" regTwo "alpha" "beta" 0 1 regTwoAfterAlpha
           regTwoAfterBoth [.construct "alpha"] [.construct "beta"]
           ⟨by decide, by decide, by decide⟩ (by decide) (by decide)
           (by decide),
         h.2.2 "BaseParser" regTwo "alpha" (.ok 0) regTwoAfterAlpha
           [.construct "alpha"] ⟨by decide, by decide, by decide⟩
           (by decide)⟩

/-- Claim C6: the taxonomy was claimed to define `PluginLoadError`,
`PluginConfigurationError` and `StorageError` as distinct error kinds.  The
importing modules (`plugin_manager.py`, `ingestion.py`) do request exactly those
names from `scrsit.core.exceptions`, and `plugin_manager.py` raises them as the
claim describes — but `exceptions.py` never defines them (it defines
`StoreError` instead of `StorageError` and omits both plugin-error classes), so
the imports themselves fail.  This theorem evaluates the name-level model at the
failing inputs: each of the three names is imported yet undefined, while
`PluginNotFoundError` and `StoreError` do exist. -/
theorem c6_exception_taxonomy_gap :
    "PluginLoadError" ∈ pluginManagerImportedExceptionNames ∧
    "PluginConfigurationError" ∈ pluginManagerImportedExceptionNames ∧
    "StorageError" ∈ ingestionImportedExceptionNames ∧
    "PluginLoadError" ∉ coreExceptionsDefinedNames ∧
    "PluginConfigurationError" ∉ coreExceptionsDefinedNames ∧
    "StorageError" ∉ coreExceptionsDefinedNames ∧
    "PluginNotFoundError" ∈ coreExceptionsDefinedNames ∧
    "StoreError" ∈ coreExceptionsDefinedNames := by decide

/-- Claim C3: when chunk persistence is requested and the document has chunks,
an embedder whose vector count differs from the chunk count makes the run raise
`EmbeddingError` (the mismatch error, wrapped by the stage handler), and the
vector store is never resolved and its add call never reached. -/
theorem c3_embedding_count_invariant (env : Env) (a : RunArgs) (d0 : Document)
    (cs : List Chunk) (es : List (List Int))
    (hsc : a.saveChunks = true)
    (hp1 : env.resolveParserR = .ok ()) (hp2 : env.parseResult = .ok d0)
    (hc1 : env.resolveChunkerR = .ok ()) (hc2 : env.chunkResult = .ok cs)
    (hcs : cs ≠ [])
    (he1 : env.resolveEmbedderR = .ok ()) (he2 : env.embedResult = .ok es)
    (hlen : es.length ≠ cs.length) :
    (run env a).1 = .error (.embeddingError .embeddingMismatch) ∧
    WEvent.vectorAdd ∉ (run env a).2 ∧
    WEvent.resolveVectorStoreEv ∉ (run env a).2 := by
  have hcs' : cs.isEmpty = false := isEmpty_false_of_ne_nil hcs
  have hlen' : (es.length == cs.length) = false := by simpa using hlen
  have hrun : run env a =
      (.error (.embeddingError .embeddingMismatch),
       [.resolveParserEv, .parseCall, .resolveChunkerEv, .chunkCall,
        .resolveEmbedderEv, .embedCall]) := by
    simp [run, stageParse, stageChunk, stageEmbed, hp1, hp2, hc1, hc2, hsc,
      hcs', he1, he2, hlen']
  rw [hrun]
  exact ⟨rfl, by decide, by decide⟩

/-- Claim C3, witness: an embedder returning no vectors for a one-chunk
document. -/
theorem c3_embedding_count_invariant_witness :
    (run { baseEnv with embedResult := .ok [] } baseArgs).1 =
      .error (.embeddingError .embeddingMismatch) ∧
    WEvent.vectorAdd ∉ (run { baseEnv with embedResult := .ok [] } baseArgs).2 ∧
    WEvent.resolveVectorStoreEv ∉
      (run { baseEnv with embedResult := .ok [] } baseArgs).2 :=
  c3_embedding_count_invariant { baseEnv with embedResult := .ok [] } baseArgs
    parsedDoc [chunkA] [] rfl rfl rfl rfl rfl (by decide) rfl rfl (by decide)

/-- Claim C9, counterexample: the overlay does not leave `type` and `length`
unchanged.  With a parser returning a document of type `pdf` with `length =
none` and content of length 5, a run invoked with the unrecognized filename
`file.xyz` returns a document whose `type` was overwritten to `unknown` and
whose `length` was recomputed to 5 — so the overlay touches more than id, name
and metadata. -/
theorem c9_counterexample :
    (run baseEnv xyzArgs).1 = .ok c9ResultDoc ∧
    parsedDoc.type = DocumentType.pdf ∧
    c9ResultDoc.type = DocumentType.unknown ∧
    parsedDoc.length = none ∧
    c9ResultDoc.length = some 5 := by decide

/-- Claim C9, amended: after the Parse stage the pipeline applies exactly
`overlay`, which sets `id` when a truthy `doc_id` was supplied, always sets
`name` and `type` (the latter to the type inferred from the filename), merges
truthy caller metadata, and recomputes `length` from a truthy `content`;
`checksum`, `content`, `tokens`, `chunks`, `entities` and `relationships` are
left unchanged. -/
theorem c9_overlay_amended (env : Env) (a : RunArgs) (dt : DocumentType)
    (dn : String) (d d0 : Document) :
    (env.resolveParserR = .ok () → env.parseResult = .ok d0 →
      stageParse env a dt dn =
        (.ok (overlay a dt dn d0), [.resolveParserEv, .parseCall])) ∧
    (overlay a dt dn d).id =
      (if strTruthy a.docId then a.docId.getD "" else d.id) ∧
    (overlay a dt dn d).name = dn ∧
    (overlay a dt dn d).type = dt ∧
    (overlay a dt dn d).metadata =
      (if dictTruthy a.metadata then dictUpdate d.metadata (a.metadata.getD [])
       else d.metadata) ∧
    (overlay a dt dn d).length =
      (if strTruthy d.content then some (d.content.getD "").length
       else d.length) ∧
    (overlay a dt dn d).checksum = d.checksum ∧
    (overlay a dt dn d).content = d.content ∧
    (overlay a dt dn d).tokens = d.tokens ∧
    (overlay a dt dn d).chunks = d.chunks ∧
    (overlay a dt dn d).entities = d.entities ∧
    (overlay a dt dn d).relationships = d.relationships := by
  refine ⟨?_, ?_, ?_, ?_, ?_, ?_, ?_, ?_, ?_, ?_, ?_, ?_⟩
  · intro h1 h2
    simp [stageParse, h1, h2]
  all_goals (simp only [overlay]; split_ifs <;> rfl)

/-- Claim C9, amended, witness at concrete inputs. -/
theorem c9_overlay_amended_witness :
    stageParse baseEnv xyzArgs DocumentType.unknown "file.xyz" =
      (.ok (overlay xyzArgs DocumentType.unknown "file.xyz" parsedDoc),
       [.resolveParserEv, .parseCall]) ∧
    (overlay xyzArgs DocumentType.unknown "file.xyz" parsedDoc).type =
      DocumentType.unknown ∧
    (overlay xyzArgs DocumentType.unknown "file.xyz" parsedDoc).checksum =
      parsedDoc.checksum := by
  have h := c9_overlay_amended baseEnv xyzArgs DocumentType.unknown "file.xyz"
    parsedDoc parsedDoc
  exact ⟨h.1 rfl rfl, by rw [h.2.2.2.1], h.2.2.2.2.2.2.1⟩

/-- Claim C5: with analysis enabled, the analyzer loop never fails the run —
each resolved analyzer runs (its `analyze` call appears in the trace), a raising
analyzer and an analyzer with an unrecognized `analysis_type` or non-list result
each contribute nothing, and the returned document's entities are the parsed
entities extended, in order, with exactly the successful `entity_extraction`
analyzers' lists. -/
theorem c5_analyzer_isolation (env : Env) (a : RunArgs) (d0 : Document)
    (cs : List Chunk) (specs : List AnalyzerSpec)
    (hp1 : env.resolveParserR = .ok ()) (hp2 : env.parseResult = .ok d0)
    (hc1 : env.resolveChunkerR = .ok ()) (hc2 : env.chunkResult = .ok cs)
    (hsc : a.saveChunks = false) (hsd : a.saveDocument = false)
    (hra : a.runAnalysis = true)
    (hres : resolveAnalyzers env.enabledAnalyzers = .ok specs) :
    (run env a).1 = .ok (runAnalyzerList
      { overlay a (getDocumentType a.filename)
          (docNameOf a.filename env.startTime) d0 with chunks := cs } specs) ∧
    (runAnalyzerList
      { overlay a (getDocumentType a.filename)
          (docNameOf a.filename env.startTime) d0 with
        chunks := cs } specs).entities =
      d0.entities ++ (specs.map analyzerContribution).flatten ∧
    (∀ s ∈ specs, WEvent.analyzeCall s.name ∈ (run env a).2) := by
  refine ⟨?_, ?_, ?_⟩
  · simp [run, stageParse, stageChunk, stageEmbed, stageAnalyze,
      stagePersistVector, stagePersistDocument, hp1, hp2, hc1, hc2, hsc, hsd,
      hra, hres]
  · rw [runAnalyzerList_entities]
    simp [overlay_entities]
  · intro s hs
    simp [run, stageParse, stageChunk, stageEmbed, stageAnalyze,
      stagePersistVector, stagePersistDocument, hp1, hp2, hc1, hc2, hsc, hsd,
      hra, hres, List.mem_append, List.mem_map]
    exact Or.inl ⟨s, hs, rfl⟩

/-- Claim C5, witness: of three enabled analyzers — one raising, one returning
one entity, one of unrecognized type — the raising and unrecognized ones are
skipped, all three run, the run succeeds and the result contains exactly the
successful analyzer's entity. -/
theorem c5_analyzer_isolation_witness :
    (run env5 analysisOnlyArgs).1 = .ok c5ResultDoc ∧
    c5ResultDoc.entities = parsedDoc.entities ++ [entA] ∧
    WEvent.analyzeCall "anA" ∈ (run env5 analysisOnlyArgs).2 ∧
    WEvent.analyzeCall "anB" ∈ (run env5 analysisOnlyArgs).2 ∧
    WEvent.analyzeCall "anC" ∈ (run env5 analysisOnlyArgs).2 := by
  have h := c5_analyzer_isolation env5 analysisOnlyArgs parsedDoc [chunkA]
    [specA, specB, specC] rfl rfl rfl rfl rfl rfl rfl (by decide)
  exact ⟨h.1, h.2.1, h.2.2 specA (by decide), h.2.2 specB (by decide),
         h.2.2 specC (by decide)⟩

/-- Claim C10: a run with analysis enabled whose analyzers contributed at least
one entity resolves the structured store even when both save flags are
disabled, and, when that resolution succeeds, writes the entity batch to it;
the run still succeeds. -/
theorem c10_structured_writes_ignore_save_flags (env : Env) (a : RunArgs)
    (d0 : Document) (cs : List Chunk) (specs : List AnalyzerSpec)
    (hp1 : env.resolveParserR = .ok ()) (hp2 : env.parseResult = .ok d0)
    (hc1 : env.resolveChunkerR = .ok ()) (hc2 : env.chunkResult = .ok cs)
    (hsc : a.saveChunks = false) (hsd : a.saveDocument = false)
    (hra : a.runAnalysis = true)
    (hres : resolveAnalyzers env.enabledAnalyzers = .ok specs)
    (hcontrib : (specs.map analyzerContribution).flatten ≠ []) :
    WEvent.resolveStructuredStoreEv ∈ (run env a).2 ∧
    (env.resolveStructuredStoreR = .ok () →
      WEvent.saveBatch "entities" ∈ (run env a).2) ∧
    (run env a).1 = .ok (runAnalyzerList
      { overlay a (getDocumentType a.filename)
          (docNameOf a.filename env.startTime) d0 with chunks := cs } specs) := by
  have hents : (runAnalyzerList
      { overlay a (getDocumentType a.filename)
          (docNameOf a.filename env.startTime) d0 with
        chunks := cs } specs).entities.isEmpty = false := by
    apply isEmpty_false_of_ne_nil
    rw [runAnalyzerList_entities]
    intro hnil
    exact hcontrib (List.append_eq_nil.mp hnil).2
  refine ⟨?_, ?_, ?_⟩
  · simp [run, stageParse, stageChunk, stageEmbed, stageAnalyze,
      stagePersistVector, stagePersistStructured, stagePersistDocument,
      hp1, hp2, hc1, hc2, hsc, hsd, hra, hres, hents, List.mem_append]
    (repeat' split) <;> decide
  · intro hst
    simp [run, stageParse, stageChunk, stageEmbed, stageAnalyze,
      stagePersistVector, stagePersistStructured, stagePersistDocument,
      hp1, hp2, hc1, hc2, hsc, hsd, hra, hres, hents, hst, List.mem_append]
    (repeat' split) <;> decide
  · simp [run, stageParse, stageChunk, stageEmbed, stageAnalyze,
      stagePersistVector, stagePersistDocument, hp1, hp2, hc1, hc2, hsc, hsd,
      hra, hres]

/-- Claim C10, witness: one contributing analyzer, both save flags disabled —
the structured store is resolved and the entity batch written. -/
theorem c10_structured_writes_ignore_save_flags_witness :
    WEvent.resolveStructuredStoreEv ∈ (run env10 analysisOnlyArgs).2 ∧
    WEvent.saveBatch "entities" ∈ (run env10 analysisOnlyArgs).2 ∧
    (run env10 analysisOnlyArgs).1 = .ok { overlaidDoc with entities := [entA] } := by
  have h := c10_structured_writes_ignore_save_flags env10 analysisOnlyArgs
    parsedDoc [chunkA] [specB] rfl rfl rfl rfl rfl rfl rfl (by decide)
    (by decide)
  exact ⟨h.1, h.2.1 rfl, h.2.2⟩

/-- Claim C7, counterexample: an enabled analyzer name that is not registered
does not cause any error to reach the caller — `get_enabled_analyzers` catches
the `PluginNotFoundError` and skips the name, the analyzer is never invoked,
and the run succeeds. -/
theorem c7_counterexample :
    (run env7 analysisOnlyArgs).1 = .ok overlaidDoc ∧
    WEvent.analyzeCall "missing" ∉ (run env7 analysisOnlyArgs).2 := by decide

/-- Claim C7, amended: resolution errors are not uniformly propagated.
(1) `PluginNotFoundError` for an enabled analyzer is caught inside
`get_enabled_analyzers`: with no other resolution failure, the successfully
resolved analyzers are returned and the missing names skipped. (2) Any other
analyzer-resolution error escapes and reaches the pipeline caller unwrapped.
(3)-(6) Parser, chunker, embedder and vector-store resolution errors abort the
run but arrive wrapped in the stage error (`ParsingError`, `WorkflowError`,
`EmbeddingError`, `StorageError`). (7) A structured-store resolution error is
caught and logged, and the run still succeeds. (8) A document-store resolution
error aborts the run wrapped as `StorageError`. -/
theorem c7_resolution_error_propagation :
    (∀ rs, rs.all (fun r => !r.isResolveFail) = true →
      resolveAnalyzers rs = .ok (okAnalyzers rs)) ∧
    (∀ env a d0 cs e, env.resolveParserR = .ok () →
      env.parseResult = .ok d0 → env.resolveChunkerR = .ok () →
      env.chunkResult = .ok cs → a.saveChunks = false →
      a.runAnalysis = true →
      resolveAnalyzers env.enabledAnalyzers = .error e →
      (run env a).1 = .error e) ∧
    (∀ env a e, env.resolveParserR = .error e →
      (run env a).1 = .error (.parsingError e)) ∧
    (∀ env a d0 e, env.resolveParserR = .ok () → env.parseResult = .ok d0 →
      env.resolveChunkerR = .error e →
      (run env a).1 = .error (.workflowError e)) ∧
    (∀ env a d0 cs e, env.resolveParserR = .ok () →
      env.parseResult = .ok d0 → env.resolveChunkerR = .ok () →
      env.chunkResult = .ok cs → cs ≠ [] → a.saveChunks = true →
      env.resolveEmbedderR = .error e →
      (run env a).1 = .error (.embeddingError e)) ∧
    (∀ env a d0 cs es e, env.resolveParserR = .ok () →
      env.parseResult = .ok d0 → env.resolveChunkerR = .ok () →
      env.chunkResult = .ok cs → cs ≠ [] → a.saveChunks = true →
      env.resolveEmbedderR = .ok () → env.embedResult = .ok es →
      es.length = cs.length → a.runAnalysis = false →
      env.resolveVectorStoreR = .error e →
      (run env a).1 = .error (.storageError e)) ∧
    (∀ env a d0 cs specs e, env.resolveParserR = .ok () →
      env.parseResult = .ok d0 → env.resolveChunkerR = .ok () →
      env.chunkResult = .ok cs → a.saveChunks = false →
      a.saveDocument = false → a.runAnalysis = true →
      resolveAnalyzers env.enabledAnalyzers = .ok specs →
      env.resolveStructuredStoreR = .error e →
      (run env a).1 = .ok (runAnalyzerList
        { overlay a (getDocumentType a.filename)
            (docNameOf a.filename env.startTime) d0 with
          chunks := cs } specs)) ∧
    (∀ env a d0 cs e, env.resolveParserR = .ok () →
      env.parseResult = .ok d0 → env.resolveChunkerR = .ok () →
      env.chunkResult = .ok cs → a.saveChunks = false →
      a.runAnalysis = false → a.saveDocument = true →
      env.resolveDocumentStoreR = .error e →
      (run env a).1 = .error (.storageError e)) := by
  refine ⟨?_, ?_, ?_, ?_, ?_, ?_, ?_, ?_⟩
  · intro rs hall
    induction rs with
    | nil => rfl
    | cons r rest ih =>
      rw [List.all_cons] at hall
      rcases Bool.and_eq_true_iff.mp hall with ⟨hr, hrest⟩
      cases r with
      | notFound n => simpa [resolveAnalyzers, okAnalyzers] using ih hrest
      | resolveFail n e => simp [AnalyzerResolution.isResolveFail] at hr
      | ok s => simp [resolveAnalyzers, okAnalyzers, Except.map, ih hrest]
  · intro env a d0 cs e hp1 hp2 hc1 hc2 hsc hra hres
    simp [run, stageParse, stageChunk, stageEmbed, stageAnalyze, hp1, hp2,
      hc1, hc2, hsc, hra, hres]
  · intro env a e hp1
    simp [run, stageParse, hp1]
  · intro env a d0 e hp1 hp2 hc1
    simp [run, stageParse, stageChunk, hp1, hp2, hc1]
  · intro env a d0 cs e hp1 hp2 hc1 hc2 hcs hsc he1
    have hcs' : cs.isEmpty = false := isEmpty_false_of_ne_nil hcs
    simp [run, stageParse, stageChunk, stageEmbed, hp1, hp2, hc1, hc2, hcs',
      hsc, he1]
  · intro env a d0 cs es e hp1 hp2 hc1 hc2 hcs hsc he1 he2 hlen hra hv1
    have hcs' : cs.isEmpty = false := isEmpty_false_of_ne_nil hcs
    have hlen' : (es.length == cs.length) = true := by simpa using hlen
    have hes : es.isEmpty = false := by
      cases es with
      | nil =>
        exfalso
        cases cs with
        | nil => exact hcs rfl
        | cons c t => simp at hlen
      | cons v vs => rfl
    have hsv : (setChunkVectors cs es).isEmpty = false := by
      apply isEmpty_false_of_ne_nil
      intro h
      have hl := congrArg List.length h
      rw [setChunkVectors_length, hlen, Nat.min_self] at hl
      exact hcs (List.length_eq_zero.mp hl)
    simp [run, stageParse, stageChunk, stageEmbed, stageAnalyze,
      stagePersistVector, listTruthy, hp1, hp2, hc1, hc2, hcs', hsc, he1,
      he2, hlen', hra, hv1, hes, hsv]
  · intro env a d0 cs specs e hp1 hp2 hc1 hc2 hsc hsd hra hres hst
    simp [run, stageParse, stageChunk, stageEmbed, stageAnalyze,
      stagePersistVector, stagePersistDocument, hp1, hp2, hc1, hc2, hsc, hsd,
      hra, hres, hst]
  · intro env a d0 cs e hp1 hp2 hc1 hc2 hsc hra hsd hd1
    simp [run, stageParse, stageChunk, stageEmbed, stageAnalyze,
      stagePersistVector, stagePersistDocument, hp1, hp2, hc1, hc2, hsc, hra,
      hsd, hd1]

/-- Claim C7, amended, witness: each propagation behaviour at a concrete
input. -/
theorem c7_resolution_error_propagation_witness :
    resolveAnalyzers [.notFound "missing", .ok specB] = .ok [specB] ∧
    (run { baseEnv with
        enabledAnalyzers := [.resolveFail "anX" (.pluginLoadError "anX")] }
      analysisOnlyArgs).1 = .error (.pluginLoadError "anX") ∧
    (run { baseEnv with
        resolveParserR := .error (.pluginNotFound "BaseParser" "nope") }
      baseArgs).1 =
      .error (.parsingError (.pluginNotFound "BaseParser" "nope")) ∧
    (run { baseEnv with
        resolveChunkerR := .error (.configurationNoDefault "BaseChunker" []) }
      baseArgs).1 =
      .error (.workflowError (.configurationNoDefault "BaseChunker" [])) ∧
    (run { baseEnv with
        resolveEmbedderR := .error (.pluginLoadError "openai") } baseArgs).1 =
      .error (.embeddingError (.pluginLoadError "openai")) ∧
    (run { baseEnv with
        resolveVectorStoreR := .error (.pluginNotFound "BaseVectorStore" "memory") }
      noAnalysisArgs).1 =
      .error (.storageError (.pluginNotFound "BaseVectorStore" "memory")) ∧
    (run { baseEnv with
        enabledAnalyzers := [.ok specB],
        resolveStructuredStoreR :=
          .error (.pluginNotFound "BaseStructuredStore" "memory") }
      analysisOnlyArgs).1 = .ok { overlaidDoc with entities := [entA] } ∧
    (run { baseEnv with
        resolveDocumentStoreR := .error (.pluginNotFound "BaseDocumentStore" "memory") }
      docOnlyArgs).1 =
      .error (.storageError (.pluginNotFound "BaseDocumentStore" "memory")) := by
  have h := c7_resolution_error_propagation
  refine ⟨h.1 [.notFound "missing", .ok specB] (by decide), ?_, ?_, ?_, ?_,
    ?_, ?_, ?_⟩
  · exact h.2.1 _ analysisOnlyArgs parsedDoc [chunkA] _ rfl rfl rfl rfl rfl
      rfl (by decide)
  · exact h.2.2.1 _ baseArgs _ rfl
  · exact h.2.2.2.1 _ baseArgs parsedDoc _ rfl rfl rfl
  · exact h.2.2.2.2.1 _ baseArgs parsedDoc [chunkA] _ rfl rfl rfl rfl
      (by decide) rfl rfl
  · exact h.2.2.2.2.2.1 _ noAnalysisArgs parsedDoc [chunkA] [[1]] _ rfl rfl
      rfl rfl (by decide) rfl rfl rfl (by decide) rfl rfl
  · exact h.2.2.2.2.2.2.1 _ analysisOnlyArgs parsedDoc [chunkA] [specB] _ rfl
      rfl rfl rfl rfl rfl rfl (by decide) rfl
  · exact h.2.2.2.2.2.2.2 _ docOnlyArgs parsedDoc [chunkA] _ rfl rfl rfl rfl
      rfl rfl rfl rfl

/-- Claim C4: persistence ordering. (1) When the vector-store add fails, the
run aborts with `StorageError` and neither the structured store nor the
document store is touched afterwards. (2) When structured-store persistence
fails, the document store is still resolved, the save is attempted, and the
run succeeds when that save succeeds. (3) In the same situation a failing
document-store save aborts the run with `StorageError`. (4) In every run the
trace decomposes into non-persistence events, then vector-store events, then
structured-store events, then document-store events — vector-store persistence
always comes before the other persistence steps, and document-store
persistence last. -/
theorem c4_persistence_ordering :
    (∀ env a d0 cs es specs e, env.resolveParserR = .ok () →
      env.parseResult = .ok d0 → env.resolveChunkerR = .ok () →
      env.chunkResult = .ok cs → cs ≠ [] → a.saveChunks = true →
      env.resolveEmbedderR = .ok () → env.embedResult = .ok es →
      es.length = cs.length →
      resolveAnalyzers env.enabledAnalyzers = .ok specs →
      env.resolveVectorStoreR = .ok () →
      env.addEmbeddingsResult = .error e →
      (run env a).1 = .error (.storageError e) ∧
      WEvent.resolveStructuredStoreEv ∉ (run env a).2 ∧
      (∀ t, WEvent.saveBatch t ∉ (run env a).2) ∧
      WEvent.resolveDocumentStoreEv ∉ (run env a).2 ∧
      WEvent.docSave ∉ (run env a).2) ∧
    (∀ env a d0 cs specs e, env.resolveParserR = .ok () →
      env.parseResult = .ok d0 → env.resolveChunkerR = .ok () →
      env.chunkResult = .ok cs → a.saveChunks = false →
      a.runAnalysis = true →
      resolveAnalyzers env.enabledAnalyzers = .ok specs →
      d0.entities ≠ [] →
      env.resolveStructuredStoreR = .ok () →
      env.saveEntitiesResult = .error e →
      a.saveDocument = true → env.resolveDocumentStoreR = .ok () →
      env.saveDocumentResult = .ok () →
      (run env a).1 = .ok (runAnalyzerList
        { overlay a (getDocumentType a.filename)
            (docNameOf a.filename env.startTime) d0 with
          chunks := cs } specs) ∧
      WEvent.saveBatch "entities" ∈ (run env a).2 ∧
      WEvent.resolveDocumentStoreEv ∈ (run env a).2 ∧
      WEvent.docSave ∈ (run env a).2) ∧
    (∀ env a d0 cs specs e e2, env.resolveParserR = .ok () →
      env.parseResult = .ok d0 → env.resolveChunkerR = .ok () →
      env.chunkResult = .ok cs → a.saveChunks = false →
      a.runAnalysis = true →
      resolveAnalyzers env.enabledAnalyzers = .ok specs →
      d0.entities ≠ [] →
      env.resolveStructuredStoreR = .ok () →
      env.saveEntitiesResult = .error e →
      a.saveDocument = true → env.resolveDocumentStoreR = .ok () →
      env.saveDocumentResult = .error e2 →
      (run env a).1 = .error (.storageError e2) ∧
      WEvent.docSave ∈ (run env a).2) ∧
    (∀ env a, ∃ p q r s, (run env a).2 = p ++ q ++ r ++ s ∧
      p.all (fun e => !e.isPersistEvent) = true ∧
      q.all WEvent.isVectorEvent = true ∧
      r.all WEvent.isStructuredEvent = true ∧
      s.all WEvent.isDocStoreEvent = true) := by
  refine ⟨?_, ?_, ?_, ?_⟩
  · intro env a d0 cs es specs e hp1 hp2 hc1 hc2 hcs hsc he1 he2 hlen hres
      hv1 hv2
    have hcs' : cs.isEmpty = false := isEmpty_false_of_ne_nil hcs
    have hlen' : (es.length == cs.length) = true := by simpa using hlen
    have hesne : es ≠ [] := by
      intro h
      subst h
      cases cs with
      | nil => exact hcs rfl
      | cons c t => simp at hlen
    have hes : es.isEmpty = false := isEmpty_false_of_ne_nil hesne
    have hsvne : setChunkVectors cs es ≠ [] := by
      intro h
      have hl := congrArg List.length h
      rw [setChunkVectors_length, hlen, Nat.min_self] at hl
      exact hcs (List.length_eq_zero.mp hl)
    have hsv : (setChunkVectors cs es).isEmpty = false :=
      isEmpty_false_of_ne_nil hsvne
    cases hra : a.runAnalysis
    all_goals refine ⟨?_, ?_, fun t => ?_, ?_, ?_⟩
    all_goals simp [run, stageParse, stageChunk, stageEmbed, stageAnalyze,
      stagePersistVector, listTruthy, runAnalyzerList_chunks, hp1, hp2, hc1,
      hc2, hcs, hcs', hsc, he1, he2, hlen', hres, hra, hv1, hv2, hes, hesne,
      hsv, hsvne, List.mem_append, List.mem_map]
  · intro env a d0 cs specs e hp1 hp2 hc1 hc2 hsc hra hres hent hst1 hse hsd
      hd1 hd2
    have hents : (runAnalyzerList
        { overlay a (getDocumentType a.filename)
            (docNameOf a.filename env.startTime) d0 with
          chunks := cs } specs).entities.isEmpty = false := by
      apply isEmpty_false_of_ne_nil
      intro h
      rw [runAnalyzerList_entities] at h
      have h' := (List.append_eq_nil.mp h).1
      simp [overlay_entities] at h'
      exact hent h'
    refine ⟨?_, ?_, ?_, ?_⟩
    all_goals simp [run, stageParse, stageChunk, stageEmbed, stageAnalyze,
      stagePersistVector, stagePersistStructured, stagePersistDocument,
      hp1, hp2, hc1, hc2, hsc, hra, hres, hents, hst1, hse, hsd, hd1, hd2,
      List.mem_append, List.mem_map]
  · intro env a d0 cs specs e e2 hp1 hp2 hc1 hc2 hsc hra hres hent hst1 hse
      hsd hd1 hd2
    have hents : (runAnalyzerList
        { overlay a (getDocumentType a.filename)
            (docNameOf a.filename env.startTime) d0 with
          chunks := cs } specs).entities.isEmpty = false := by
      apply isEmpty_false_of_ne_nil
      intro h
      rw [runAnalyzerList_entities] at h
      have h' := (List.append_eq_nil.mp h).1
      simp [overlay_entities] at h'
      exact hent h'
    refine ⟨?_, ?_⟩
    all_goals simp [run, stageParse, stageChunk, stageEmbed, stageAnalyze,
      stagePersistVector, stagePersistStructured, stagePersistDocument,
      hp1, hp2, hc1, hc2, hsc, hra, hres, hents, hst1, hse, hsd, hd1, hd2,
      List.mem_append, List.mem_map]
  · intro env a
    rcases h1 : stageParse env a (getDocumentType a.filename)
        (docNameOf a.filename env.startTime) with ⟨r1, t1⟩
    have ht1 : t1.all (fun e => !e.isPersistEvent) = true := by
      have h := stageParse_trace_all env a (getDocumentType a.filename)
        (docNameOf a.filename env.startTime)
      rw [h1] at h
      exact h
    cases r1 with
    | error e1 => exact ⟨t1, [], [], [], by simp [run, h1], ht1, rfl, rfl, rfl⟩
    | ok d1 =>
      rcases h2 : stageChunk env d1 with ⟨r2, t2⟩
      have ht2 : t2.all (fun e => !e.isPersistEvent) = true := by
        have h := stageChunk_trace_all env d1
        rw [h2] at h
        exact h
      cases r2 with
      | error e2 =>
        exact ⟨t1 ++ t2, [], [], [], by simp [run, h1, h2],
          by simp [List.all_append, ht1, ht2], rfl, rfl, rfl⟩
      | ok d2 =>
        rcases h3 : stageEmbed env a d2 with ⟨r3, t3⟩
        have ht3 : t3.all (fun e => !e.isPersistEvent) = true := by
          have h := stageEmbed_trace_all env a d2
          rw [h3] at h
          exact h
        cases r3 with
        | error e3 =>
          exact ⟨t1 ++ t2 ++ t3, [], [], [], by simp [run, h1, h2, h3],
            by simp [List.all_append, ht1, ht2, ht3], rfl, rfl, rfl⟩
        | ok pr =>
          obtain ⟨d3, embs⟩ := pr
          rcases h4 : stageAnalyze env a d3 with ⟨r4, t4⟩
          have ht4 : t4.all (fun e => !e.isPersistEvent) = true := by
            have h := stageAnalyze_trace_all env a d3
            rw [h4] at h
            exact h
          cases r4 with
          | error e4 =>
            exact ⟨t1 ++ t2 ++ t3 ++ t4, [], [], [],
              by simp [run, h1, h2, h3, h4],
              by simp [List.all_append, ht1, ht2, ht3, ht4], rfl, rfl, rfl⟩
          | ok d4 =>
            rcases h5 : stagePersistVector env a d4 embs with ⟨r5, t5⟩
            have ht5 : t5.all WEvent.isVectorEvent = true := by
              have h := stagePersistVector_trace_all env a d4 embs
              rw [h5] at h
              exact h
            cases r5 with
            | error e5 =>
              exact ⟨t1 ++ t2 ++ t3 ++ t4, t5, [], [],
                by simp [run, h1, h2, h3, h4, h5],
                by simp [List.all_append, ht1, ht2, ht3, ht4], ht5, rfl, rfl⟩
            | ok u5 =>
              rcases h7 : stagePersistDocument env a with ⟨r7, t7⟩
              have ht6 := stagePersistStructured_trace_all env a d4
              have ht7 : t7.all WEvent.isDocStoreEvent = true := by
                have h := stagePersistDocument_trace_all env a
                rw [h7] at h
                exact h
              cases r7 with
              | error e7 =>
                exact ⟨t1 ++ t2 ++ t3 ++ t4, t5,
                  stagePersistStructured env a d4, t7,
                  by simp [run, h1, h2, h3, h4, h5, h7],
                  by simp [List.all_append, ht1, ht2, ht3, ht4], ht5, ht6, ht7⟩
              | ok u7 =>
                exact ⟨t1 ++ t2 ++ t3 ++ t4, t5,
                  stagePersistStructured env a d4, t7,
                  by simp [run, h1, h2, h3, h4, h5, h7],
                  by simp [List.all_append, ht1, ht2, ht3, ht4], ht5, ht6, ht7⟩

/-- Claim C4, witness: a failing vector-store add aborts the run before any
structured- or document-store event; a failing structured-store save with a
working document store still reaches `docSave` and succeeds; the same
situation with a failing document-store save ends in `StorageError`. -/
theorem c4_persistence_ordering_witness :
    (run vecFailEnv noAnalysisArgs).1 =
      .error (.storageError (.pluginRaised "db")) ∧
    WEvent.resolveStructuredStoreEv ∉ (run vecFailEnv noAnalysisArgs).2 ∧
    WEvent.saveBatch "entities" ∉ (run vecFailEnv noAnalysisArgs).2 ∧
    WEvent.resolveDocumentStoreEv ∉ (run vecFailEnv noAnalysisArgs).2 ∧
    WEvent.docSave ∉ (run vecFailEnv noAnalysisArgs).2 ∧
    (run structFailEnv docAnalysisArgs).1 = .ok overlaidDocE ∧
    WEvent.saveBatch "entities" ∈ (run structFailEnv docAnalysisArgs).2 ∧
    WEvent.docSave ∈ (run structFailEnv docAnalysisArgs).2 ∧
    (run structDocFailEnv docAnalysisArgs).1 =
      .error (.storageError (.pluginRaised "disk")) ∧
    WEvent.docSave ∈ (run structDocFailEnv docAnalysisArgs).2 := by
  have h := c4_persistence_ordering
  obtain ⟨w1, w2, w3, w4, w5⟩ := h.1 vecFailEnv noAnalysisArgs parsedDoc
    [chunkA] [[1]] [] (.pluginRaised "db")
    rfl rfl rfl rfl (by decide) rfl rfl rfl rfl rfl rfl rfl
  obtain ⟨w6, w7, w8, w9⟩ := h.2.1 structFailEnv docAnalysisArgs parsedDocE
    [chunkA] [] .notImplementedError
    rfl rfl rfl rfl rfl rfl rfl (by decide) rfl rfl rfl rfl rfl
  obtain ⟨w10, w11⟩ := h.2.2.1 structDocFailEnv docAnalysisArgs parsedDocE
    [chunkA] [] .notImplementedError (.pluginRaised "disk")
    rfl rfl rfl rfl rfl rfl rfl (by decide) rfl rfl rfl rfl rfl
  exact ⟨w1, w2, w3 "entities", w4, w5, w6, w7, w9, w10, w11⟩

/-- Claim C2, counterexample: with an external command that fails on its first
attempt and would succeed on its second (the claim's scenario with max retries
= 2), the invocation does not return success — the single failure is raised
immediately as an execution error carrying the exit code, only one attempt is
ever made, and the PDF parser's configuration surface has no retry-count
field. -/
theorem c2_counterexample :
    invokeMagicPdf [.completes 1, .completes 0] =
      .error (.nonZeroExit 1) ∧
    magicPdfAttemptCount [.completes 1, .completes 0] = 1 ∧
    "magic_pdf_max_retries" ∉ pdfParserSettingsFields := by decide

/-- Claim C2, amended: the magic-pdf invoker makes exactly one attempt, with no
retry loop and no inter-attempt delay.  The result depends only on the first
attempt outcome; a non-zero exit raises `MagicPdfExecutionError` carrying the
exit code, a timeout raises `MagicPdfExecutionError` indicating timeout, and a
zero exit succeeds. -/
theorem c2_single_attempt (o : AttemptOutcome)
    (rest rest' : List AttemptOutcome) (c : Int) :
    invokeMagicPdf (o :: rest) = invokeMagicPdf (o :: rest') ∧
    magicPdfAttemptCount (o :: rest) = 1 ∧
    (c ≠ 0 → invokeMagicPdf (.completes c :: rest) = .error (.nonZeroExit c)) ∧
    invokeMagicPdf (.timesOut :: rest) = .error .timeout ∧
    invokeMagicPdf (.completes 0 :: rest) = .ok () := by
  refine ⟨rfl, rfl, ?_, rfl, by simp [invokeMagicPdf, runMagicPdf]⟩
  intro h
  simp [invokeMagicPdf, runMagicPdf, h]

/-- Claim C2, amended, witness at concrete inputs. -/
theorem c2_single_attempt_witness :
    invokeMagicPdf [.completes 2, .completes 0] =
      invokeMagicPdf [.completes 2] ∧
    magicPdfAttemptCount [.completes 2, .completes 0] = 1 ∧
    invokeMagicPdf [.completes 2, .completes 0] =
      .error (.nonZeroExit 2) ∧
    invokeMagicPdf [.timesOut, .completes 0] = .error .timeout ∧
    invokeMagicPdf [.completes 0, .completes 0] = .ok () := by
  have h := c2_single_attempt (.completes 2) [.completes 0] [] 2
  exact ⟨h.1, h.2.1, h.2.2.1 (by decide), h.2.2.2.1, h.2.2.2.2⟩

end Scrsit
